import Mathlib

/-!
Verification of the Hirelink session/credential lifecycle core.

The definitions below shallowly embed the auth subsystem:
* the data model (`User`, `RefreshTokenRow`, `DB`) follows the Prisma
  schema as used by `src/services/*.js` and `src/middleware/requireAuth.js`;
* the Session Service operations (`login`, `refresh`, `resetPassword`,
  `verifyEmail`, `logout`) are translated from `src/services/auth.service.js`;
* the Auth Gate (`requireAuth`) is translated from
  `src/middleware/requireAuth.js`;
* the Refresh Token Ledger and Token Issuer (`token.service.js`) are not
  part of the available sources, so they are modelled from the spec
  (section 4.1 and 4.2); each such definition is marked
  `Modelled from the spec:` in its doc comment.

Randomness (fresh verification tokens, fresh refresh secrets) is made
explicit: the freshly generated values are passed as arguments.  Time is an
explicit `Nat` millisecond clock.  Database state is passed explicitly and
operations return the updated state.
-/

/-- User roles, from the Prisma enum used throughout the sources
(`TALENT`, `EMPLOYER`, `MODERATOR`). -/
inductive Role where
  | TALENT
  | EMPLOYER
  | MODERATOR
deriving DecidableEq, Repr

/-- A persisted user row, with the fields selected by
`user.service.js` and `requireAuth`.  Profile existence is modelled by the
two Booleans `talentProfile` / `employerProfile` (the gate only selects
their existence). -/
structure User where
  id : Nat
  email : String
  password : String
  role : Role
  isActive : Bool
  isEmailVerified : Bool
  verificationToken : Option String
  verificationExpiresAt : Option Nat
  talentProfile : Bool
  employerProfile : Bool
deriving DecidableEq, Repr

/-- A persisted refresh-token row, per the spec's data model (section 3):
id, owning user id, one-way hash of the secret, expiry, revoked flag,
revoked-at, optional replaced-by link to the rotation successor. -/
structure RefreshTokenRow where
  id : Nat
  userId : Nat
  tokenHash : String
  expiresAt : Nat
  revoked : Bool
  revokedAt : Option Nat
  replacedById : Option Nat
deriving DecidableEq, Repr

/-- The persistent store: user table, refresh-token table, and an id
supply for newly inserted refresh rows. -/
structure DB where
  users : List User
  refreshTokens : List RefreshTokenRow
  nextId : Nat
deriving DecidableEq, Repr

/-- Runtime configuration (from `src/config/env.js`, which only declares
the variables; the parsed millisecond values of `JWT_REFRESH_EXPIRY`,
`EMAIL_VERIFICATION_EXPIRY` and the access-token expiry are modelled as
already-parsed constants, and `NODE_ENV === "production"` as `isProd`). -/
structure EnvCfg where
  isProd : Bool
  accessExpiryMs : Nat
  refreshExpiryMs : Nat
  emailVerificationExpiryMs : Nat
deriving DecidableEq, Repr

/-- Payload of a service result, one constructor per payload shape the
embedded services produce. -/
inductive Payload where
  | noPayload
  | requiresVerification (verificationToken : Option String)
  | tokens (token : String) (refreshToken : String) (refreshExpiryMs : Nat)
  | rotated (refreshToken : String) (userId : Nat)
  | refreshed (refreshToken : String) (userId : Nat) (token : String)
  | userPayload (u : User)
deriving DecidableEq, Repr

/-- The standard result envelope produced by `src/utils/response.utils.js`
(`result({ok, statusCode, message, payload})`). -/
structure ApiResult where
  ok : Bool
  statusCode : Nat
  message : String
  payload : Payload
deriving DecidableEq, Repr

/-- Builds a failure result (`result({ok:false, ...})`). -/
def failRes (statusCode : Nat) (message : String) : ApiResult :=
  ⟨false, statusCode, message, .noPayload⟩

/-- Builds a success result (`result({ok:true, ...})`). -/
def okRes (statusCode : Nat) (message : String) (payload : Payload) : ApiResult :=
  ⟨true, statusCode, message, payload⟩

namespace StatusCodes

/-- HTTP 200, `statusCodes.OK`. -/
def OK : Nat := 200

/-- HTTP 400, `statusCodes.BAD_REQUEST`. -/
def BAD_REQUEST : Nat := 400

/-- HTTP 401, `statusCodes.UNAUTHORIZED`. -/
def UNAUTHORIZED : Nat := 401

/-- HTTP 403, `statusCodes.FORBIDDEN`. -/
def FORBIDDEN : Nat := 403

end StatusCodes

/-- JavaScript truthiness of an optional string (`!x` is true exactly for
`undefined` and the empty string). -/
def strTruthy : Option String → Bool
  | none => false
  | some s => !s.isEmpty

/-- Deterministic stand-in for the salted adaptive password hash
(`bcrypt.hash`).  Only the compare relation matters to the embedded
claims, so an injective tagging function suffices. -/
def bcryptHash (plain : String) : String := "bc$" ++ plain

/-- Stand-in for `bcrypt.compare(plain, hashed)`. -/
def bcryptCompare (plain hashed : String) : Bool := hashed == bcryptHash plain

/-- Modelled from the spec: the Ledger's one-way hash of a refresh secret
(`token.service.js` is not among the sources).  An injective tagging
function models "lookup by hash of the presented secret". -/
def hashToken (s : String) : String := "#" ++ s

/-- Modelled from the spec: the Issuer's signature over the access-token
claims (a keyed MAC in the real system); any function of the signed
fields serves the embedding. -/
def signToken (userId expiresAt : Nat) : String :=
  toString (userId * 1000003 + expiresAt)

/-- Modelled from the spec: `tokenService.generateAccessToken(userId)` —
a signed, self-contained assertion of (userId, expiresAt). -/
def generateAccessToken (envc : EnvCfg) (userId now : Nat) : String :=
  "at:" ++ toString userId ++ ":" ++ toString (now + envc.accessExpiryMs) ++
    ":" ++ signToken userId (now + envc.accessExpiryMs)

/-- Modelled from the spec: `tokenService.verifyAccessToken(token)` —
checks shape, signature and expiry; yields the userId payload or `none`
on any malformation, without distinguishing the failure cases. -/
def verifyAccessToken (token : String) (now : Nat) : Option Nat :=
  match token.splitOn ":" with
  | [tag, uidS, expS, sig] =>
    match uidS.toNat?, expS.toNat? with
    | some uid, some exp =>
      if tag == "at" && sig == signToken uid exp && now ≤ exp then some uid
      else none
    | _, _ => none
  | _ => none

/-- Modelled from the spec: Ledger `store(secret, userId, expiresAt)` —
hash the secret and insert a new active row. -/
def store (secret : String) (userId expiresAt : Nat) (db : DB) : DB :=
  { db with
    refreshTokens := db.refreshTokens ++
      [⟨db.nextId, userId, hashToken secret, expiresAt, false, none, none⟩],
    nextId := db.nextId + 1 }

/-- Modelled from the spec: Ledger `revokeAll(userId)` — mark every
non-revoked row of the user revoked, setting `revokedAt`. -/
def revokeAllRefreshTokens (userId now : Nat) (db : DB) : DB :=
  { db with
    refreshTokens := db.refreshTokens.map fun r =>
      if r.userId == userId && !r.revoked then
        { r with revoked := true, revokedAt := some now }
      else r }

/-- Modelled from the spec: Ledger `revoke(secret)` — mark the matching
row revoked; no-op-safe when already revoked or missing, and always
reports success (`tokenService.revokeRefreshToken`). -/
def revokeRefreshToken (presented : String) (now : Nat) (db : DB) :
    ApiResult × DB :=
  (okRes StatusCodes.OK "logged out" .noPayload,
   { db with
     refreshTokens := db.refreshTokens.map fun r =>
       if r.tokenHash == hashToken presented && !r.revoked then
         { r with revoked := true, revokedAt := some now }
       else r })

/-- Modelled from the spec: Ledger `rotate(presentedSecret)`
(`tokenService.rotateRefreshToken`).  Looks the row up by hash:
not found → fail without mutation; revoked or already rotated → replay,
so the owning user's entire refresh-token set is revoked and failure is
returned; expired → mark revoked and fail; otherwise mark the row rotated
(link `replacedById`), insert the successor row for the externally
generated `newSecret`, and return the new secret. -/
def rotateRefreshToken (envc : EnvCfg) (presented newSecret : String)
    (now : Nat) (db : DB) : ApiResult × DB :=
  match db.refreshTokens.find? (fun r => r.tokenHash == hashToken presented) with
  | none => (failRes StatusCodes.UNAUTHORIZED "invalid refresh token", db)
  | some r =>
    if r.revoked || r.replacedById.isSome then
      (failRes StatusCodes.UNAUTHORIZED "invalid refresh token",
       revokeAllRefreshTokens r.userId now db)
    else if r.expiresAt < now then
      (failRes StatusCodes.UNAUTHORIZED "refresh token expired",
       { db with
         refreshTokens := db.refreshTokens.map fun x =>
           if x.id == r.id then { x with revoked := true, revokedAt := some now }
           else x })
    else
      (okRes StatusCodes.OK "token rotated" (.rotated newSecret r.userId),
       { db with
         refreshTokens :=
           (db.refreshTokens.map fun x =>
             if x.id == r.id then { x with replacedById := some db.nextId }
             else x) ++
           [⟨db.nextId, r.userId, hashToken newSecret,
             now + envc.refreshExpiryMs, false, none, none⟩],
         nextId := db.nextId + 1 })

/-- Looks a user up by email, the email path of
`userService.findUser` (`prisma.user.findUnique({where:{email}})`). -/
def findUserByEmail (email : String) (db : DB) : Option User :=
  db.users.find? fun u => u.email == email

/-- Looks a user up by id (`prisma.user.findUnique({where:{id}})`). -/
def findUserById (id : Nat) (db : DB) : Option User :=
  db.users.find? fun u => u.id == id

/-- Update of one user row, `prisma.user.update({where:{id}, data})`:
rewrite the row with the given id. -/
def updateUser (id : Nat) (f : User → User) (db : DB) : DB :=
  { db with users := db.users.map fun u => if u.id == id then f u else u }

/-- Translation of `verificationService.resendVerificationToken(userId)`: store a fresh
verification token and a new expiry on the user row
(`src/services/verification.service.js`).  The fresh random token is the
explicit argument `freshTok`. -/
def resendVerificationToken (envc : EnvCfg) (userId : Nat) (freshTok : String)
    (now : Nat) (db : DB) : DB :=
  updateUser userId
    (fun u =>
      { u with
        verificationToken := some freshTok,
        verificationExpiresAt := some (now + envc.emailVerificationExpiryMs) })
    db

/-- Translation of `authService.login(email, password)` from `auth.service.js`:
user lookup by email (absent → generic `invalid credentials`, 401);
unverified email → regenerate the verification token and answer with the
distinct `email verification required` outcome; password mismatch →
generic `invalid credentials`, 400; success → mint an access token,
store a refresh row expiring at now + refresh TTL, and return token,
refresh secret and TTL.  `freshVtok` and `freshRefresh` are the
externally generated random values. -/
def login (envc : EnvCfg) (email password freshVtok freshRefresh : String)
    (now : Nat) (db : DB) : ApiResult × DB :=
  match findUserByEmail email db with
  | none => (failRes StatusCodes.UNAUTHORIZED "invalid credentials", db)
  | some user =>
    if !user.isEmailVerified then
      (okRes StatusCodes.OK "email verification required"
        (.requiresVerification (if envc.isProd then none else some freshVtok)),
       resendVerificationToken envc user.id freshVtok now db)
    else if !(bcryptCompare password user.password) then
      (failRes StatusCodes.BAD_REQUEST "invalid credentials", db)
    else
      (okRes StatusCodes.OK "user logged in"
        (.tokens (generateAccessToken envc user.id now) freshRefresh
          envc.refreshExpiryMs),
       store freshRefresh user.id (now + envc.refreshExpiryMs) db)

/-- Translation of `authService.refresh(refreshToken)` from `auth.service.js`: delegate
to the Ledger rotation; on success add a freshly minted access token to
the rotation payload, keeping status code and message. -/
def refresh (envc : EnvCfg) (refreshToken newSecret : String) (now : Nat)
    (db : DB) : ApiResult × DB :=
  let rot := rotateRefreshToken envc refreshToken newSecret now db
  if !rot.1.ok then rot
  else
    match rot.1.payload with
    | .rotated newTok uid =>
      ({ rot.1 with
         payload := .refreshed newTok uid (generateAccessToken envc uid now) },
       rot.2)
    | _ => rot

/-- Expiry test shared by `verifyEmail` and `resetPassword`
(`!user.verificationExpiresAt || new Date() > user.verificationExpiresAt`):
true when no expiry is set or the expiry lies strictly in the past. -/
def verificationExpired (u : User) (now : Nat) : Bool :=
  match u.verificationExpiresAt with
  | none => true
  | some e => e < now

/-- Translation of `authService.verifyEmail({verificationToken})` from
`auth.service.js`: find the user by token (absent → 400); already
verified → clear the verification fields and fail 400; expired or no
expiry → clear the fields and fail 400; otherwise set
`isEmailVerified`, clear the fields, succeed. -/
def verifyEmail (verificationToken : String) (now : Nat) (db : DB) :
    ApiResult × DB :=
  match db.users.find? (fun u => u.verificationToken == some verificationToken) with
  | none =>
    (failRes StatusCodes.BAD_REQUEST "invalid or expired verification token", db)
  | some user =>
    if user.isEmailVerified then
      (failRes StatusCodes.BAD_REQUEST "email already verified",
       updateUser user.id
         (fun u => { u with verificationToken := none, verificationExpiresAt := none })
         db)
    else if verificationExpired user now then
      (failRes StatusCodes.BAD_REQUEST "verification token has expired",
       updateUser user.id
         (fun u => { u with verificationToken := none, verificationExpiresAt := none })
         db)
    else
      (okRes StatusCodes.OK "email verified" .noPayload,
       updateUser user.id
         (fun u =>
           { u with
             isEmailVerified := true,
             verificationToken := none,
             verificationExpiresAt := none })
         db)

/-- Translation of `authService.resetPassword({verificationToken, newPassword,
oldPassword})` from `auth.service.js`: find the user by reset token
(absent → 400); expired or absent expiry → clear the verification fields
and fail 400; if the email is verified and an old password was supplied,
check it (mismatch → 400); otherwise, in one transaction, replace the
password hash, set `isEmailVerified`, clear the verification fields and
revoke every non-revoked refresh row of the user. -/
def resetPassword (verificationToken newPassword : String)
    (oldPassword : Option String) (now : Nat) (db : DB) : ApiResult × DB :=
  match db.users.find? (fun u => u.verificationToken == some verificationToken) with
  | none => (failRes StatusCodes.BAD_REQUEST "invalid or expired reset token", db)
  | some user =>
    if verificationExpired user now then
      (failRes StatusCodes.BAD_REQUEST "reset token has expired",
       updateUser user.id
         (fun u => { u with verificationToken := none, verificationExpiresAt := none })
         db)
    else if user.isEmailVerified && strTruthy oldPassword &&
        !(bcryptCompare (oldPassword.getD "") user.password) then
      (failRes StatusCodes.BAD_REQUEST "invalid old password", db)
    else
      (okRes StatusCodes.OK "password reset successful" .noPayload,
       { db with
         users := db.users.map fun u =>
           if u.id == user.id then
             { u with
               password := bcryptHash newPassword,
               isEmailVerified := true,
               verificationToken := none,
               verificationExpiresAt := none }
           else u,
         refreshTokens := db.refreshTokens.map fun r =>
           if r.userId == user.id && !r.revoked then
             { r with revoked := true, revokedAt := some now }
           else r })

/-- Translation of `authService.logout(refreshToken)` from `auth.service.js`: a missing
(or empty, JS-falsy) token yields a 400 `no token provided` failure;
otherwise delegate to the Ledger revoke, which always succeeds. -/
def logout (refreshToken : Option String) (now : Nat) (db : DB) :
    ApiResult × DB :=
  if !(strTruthy refreshToken) then
    (failRes StatusCodes.BAD_REQUEST "no token provided", db)
  else revokeRefreshToken (refreshToken.getD "") now db

/-- Outcome of the Auth Gate: either a rejected request or a request that
continues with `req.user = {id, role}` attached. -/
inductive AuthOutcome where
  | reject (statusCode : Nat) (message : String)
  | proceed (userId : Nat) (role : Role)
deriving DecidableEq, Repr

/-- Translation of `requireAuth` from `src/middleware/requireAuth.js`:
falsy header → 401; split on spaces, scheme other than `Bearer` or falsy
token part → 400; failed token verification → 401; no user with the
payload id → 401; inactive user → 403; role↔profile invariant violated →
403 `account misconfigured`; otherwise attach the identity and continue.
The header is `none` when absent, `some h` for a present header value. -/
def requireAuth (authHeader : Option String) (now : Nat) (db : DB) :
    AuthOutcome :=
  match authHeader with
  | none => .reject StatusCodes.UNAUTHORIZED "authorization header missing"
  | some h =>
    if h.isEmpty then
      .reject StatusCodes.UNAUTHORIZED "authorization header missing"
    else
      let parts := h.splitOn " "
      let scheme := parts.headD ""
      let token := (parts[1]?).getD ""
      if scheme != "Bearer" || token.isEmpty then
        .reject StatusCodes.BAD_REQUEST "invalid auth format"
      else
        match verifyAccessToken token now with
        | none => .reject StatusCodes.UNAUTHORIZED "invalid or expired token"
        | some uid =>
          match findUserById uid db with
          | none => .reject StatusCodes.UNAUTHORIZED "user not found"
          | some user =>
            if !user.isActive then
              .reject StatusCodes.FORBIDDEN "account deactivated"
            else if user.role == .TALENT &&
                (!user.talentProfile || user.employerProfile) then
              .reject StatusCodes.FORBIDDEN "account misconfigured"
            else if user.role == .EMPLOYER &&
                (!user.employerProfile || user.talentProfile) then
              .reject StatusCodes.FORBIDDEN "account misconfigured"
            else if user.role == .MODERATOR &&
                (user.talentProfile || user.employerProfile) then
              .reject StatusCodes.FORBIDDEN "account misconfigured"
            else .proceed user.id user.role

/-- The Auth Gate per-request state machine as the spec words it
(section 4.4): missing Authorization header → 401; scheme other than
Bearer or missing token part → 400; token failing verification → 401;
token valid but user missing → 401; user inactive → 403; role↔profile
invariant violated (a TALENT without a talent profile or with an employer
profile, an EMPLOYER the inverse, a MODERATOR with either profile) →
403 with message `account misconfigured`; otherwise attach
`{userId, role}` and continue.  An empty header value counts as a
missing header. -/
def requireAuthSpec (authHeader : Option String) (now : Nat) (db : DB) :
    AuthOutcome :=
  match authHeader with
  | none => .reject 401 "authorization header missing"
  | some h =>
    if h.isEmpty then .reject 401 "authorization header missing"
    else
      let parts := h.splitOn " "
      if parts.headD "" ≠ "Bearer" ∨ (parts[1]?).getD "" = "" then
        .reject 400 "invalid auth format"
      else
        match verifyAccessToken ((parts[1]?).getD "") now with
        | none => .reject 401 "invalid or expired token"
        | some uid =>
          match findUserById uid db with
          | none => .reject 401 "user not found"
          | some user =>
            if user.isActive = false then .reject 403 "account deactivated"
            else if (user.role = .TALENT ∧
                  (user.talentProfile = false ∨ user.employerProfile = true)) ∨
                (user.role = .EMPLOYER ∧
                  (user.employerProfile = false ∨ user.talentProfile = true)) ∨
                (user.role = .MODERATOR ∧
                  (user.talentProfile = true ∨ user.employerProfile = true)) then
              .reject 403 "account misconfigured"
            else .proceed user.id user.role

/-- Bool form of "every user row with this id satisfies p". -/
def allUsersWithId (db : DB) (id : Nat) (p : User → Bool) : Bool :=
  db.users.all fun u => u.id != id || p u

/-- Bool form of "every refresh-token row of this user satisfies p". -/
def allTokensOfUser (db : DB) (uid : Nat) (p : RefreshTokenRow → Bool) : Bool :=
  db.refreshTokens.all fun r => r.userId != uid || p r

/-- Concrete runtime configuration used by the witnesses. -/
def envC : EnvCfg := ⟨false, 50, 1000, 300⟩

/-- Concrete verified talent user used by the witnesses. -/
def userA : User := ⟨1, "a@b.c", bcryptHash "pw", .TALENT, true, true, none, none, true, false⟩

/-- Concrete unverified employer user (outstanding verification token
`vt2` expiring at 100) used by the witnesses. -/
def userB : User := ⟨2, "u@v.w", bcryptHash "qq", .EMPLOYER, true, false, some "vt2", some 100, false, true⟩

/-- Concrete active refresh row for secret `T`, owned by `userA`. -/
def rowT : RefreshTokenRow := ⟨0, 1, hashToken "T", 1000, false, none, none⟩

/-- Concrete second active refresh row of `userA` (another login). -/
def rowS3 : RefreshTokenRow := ⟨1, 1, hashToken "S3", 1000, false, none, none⟩

/-- Concrete active refresh row owned by `userB`. -/
def rowZ : RefreshTokenRow := ⟨2, 2, hashToken "Z", 1000, false, none, none⟩

/-- Concrete store used by the witnesses and counterexamples. -/
def dbC : DB := ⟨[userA, userB], [rowT, rowS3, rowZ], 3⟩

/-- List helper: `find?` commutes with a `map` whose function preserves
the predicate. -/
theorem find?_map_pred_preserved {α : Type} (f : α → α) (p : α → Bool)
    (hp : ∀ x, p (f x) = p x) (l : List α) :
    (l.map f).find? p = (l.find? p).map f := by
  induction l with
  | nil => rfl
  | cons x xs ih =>
    by_cases hx : p x
    · simp [List.find?_cons_of_pos, hx, hp]
    · rw [List.map_cons, List.find?_cons_of_neg _ hx,
        List.find?_cons_of_neg _ (by rw [hp]; exact hx), ih]

/-- List helper: a successful `find?` on the left part survives an
append. -/
theorem find?_append_some {α : Type} (p : α → Bool) {l₁ : List α}
    (l₂ : List α) {a : α} (h : l₁.find? p = some a) :
    (l₁ ++ l₂).find? p = some a := by
  induction l₁ with
  | nil => simp [List.find?] at h
  | cons x xs ih =>
    by_cases hx : p x
    · rw [List.find?_cons_of_pos _ hx] at h
      rw [List.cons_append, List.find?_cons_of_pos _ hx]
      exact h
    · rw [List.find?_cons_of_neg _ hx] at h
      rw [List.cons_append, List.find?_cons_of_neg _ hx]
      exact ih h

/-- Ledger helper: after `revokeAll`, every row of the user is revoked. -/
theorem revokeAll_all_revoked (uid now : Nat) (db : DB) :
    allTokensOfUser (revokeAllRefreshTokens uid now db) uid
      (fun x => x.revoked) = true := by
  simp only [allTokensOfUser, revokeAllRefreshTokens, List.all_eq_true,
    List.mem_map]
  rintro x ⟨y, hy, rfl⟩
  by_cases h1 : (y.userId == uid && !y.revoked) = true
  · simp [h1]
  · simp only [h1, if_neg]
    simp only [Bool.and_eq_true, Bool.not_eq_true', beq_iff_eq] at h1
    by_cases h2 : y.userId = uid
    · simp [h2] at h1 ⊢
      exact h1
    · simp [h2]

/-- C3 (amended): both failed-login cases return the same generic
`invalid credentials` message, but with different status codes — 401 when
the email does not exist, 400 when the password mismatches — so the two
cases are distinguishable by status code. -/
theorem login_failure_same_message_different_codes
    (envc : EnvCfg) (e1 p1 e2 p2 v r : String) (now : Nat) (db : DB) (u : User)
    (h1 : findUserByEmail e1 db = none)
    (h2 : findUserByEmail e2 db = some u)
    (hver : u.isEmailVerified = true)
    (hpw : bcryptCompare p2 u.password = false) :
    (login envc e1 p1 v r now db).1 =
      failRes StatusCodes.UNAUTHORIZED "invalid credentials" ∧
    (login envc e2 p2 v r now db).1 =
      failRes StatusCodes.BAD_REQUEST "invalid credentials" := by
  constructor
  · simp [login, h1]
  · simp [login, h2, hver, hpw]

/-- C3 witness: the amended theorem applied in the concrete store. -/
theorem login_failure_same_message_different_codes_witness :
    (login envC "x@y.z" "pw" "v" "r" 10 dbC).1 =
      failRes StatusCodes.UNAUTHORIZED "invalid credentials" ∧
    (login envC "a@b.c" "wrong" "v" "r" 10 dbC).1 =
      failRes StatusCodes.BAD_REQUEST "invalid credentials" :=
  login_failure_same_message_different_codes envC "x@y.z" "pw" "a@b.c" "wrong"
    "v" "r" 10 dbC userA (by decide) (by decide) (by decide) (by decide)

/-- C3 counterexample: as stated the claim is false — at the concrete
store, both failures carry the message `invalid credentials`, yet the
status codes differ (401 for unknown email, 400 for wrong password), so
the outcomes are not identical. -/
theorem login_failure_outcomes_not_identical_cex :
    (login envC "x@y.z" "pw" "v" "r" 10 dbC).1.ok = false ∧
    (login envC "a@b.c" "wrong" "v" "r" 10 dbC).1.ok = false ∧
    (login envC "x@y.z" "pw" "v" "r" 10 dbC).1.message =
      (login envC "a@b.c" "wrong" "v" "r" 10 dbC).1.message ∧
    (login envC "x@y.z" "pw" "v" "r" 10 dbC).1.statusCode ≠
      (login envC "a@b.c" "wrong" "v" "r" 10 dbC).1.statusCode := by
  decide

/-- C6 (amended): for every provided non-empty refresh token, in any
Ledger state, logout reports success, and a second logout with the same
token also reports success; a missing token is the exception the claim
overlooks. -/
theorem logout_idempotent_for_present_token
    (T : String) (hT : T.isEmpty = false) (now now2 : Nat) (db : DB) :
    (logout (some T) now db).1.ok = true ∧
    (logout (some T) now2 (logout (some T) now db).2).1.ok = true := by
  simp [logout, strTruthy, hT, revokeRefreshToken, okRes]

/-- C6 witness: the amended theorem applied to the concrete store with a
rotated-state-free token and again with its own output state. -/
theorem logout_idempotent_for_present_token_witness :
    (logout (some "T") 5 dbC).1.ok = true ∧
    (logout (some "T") 6 (logout (some "T") 5 dbC).2).1.ok = true :=
  logout_idempotent_for_present_token "T" (by decide) 5 6 dbC

/-- C6 counterexample: as stated the claim is false — with an absent
token (`none`, no cookie), logout reports a 400 `no token provided`
failure rather than success. -/
theorem logout_absent_token_fails_cex :
    (logout none 5 dbC).1.ok = false ∧
    (logout none 5 dbC).1.statusCode = 400 := by
  decide

/-- C8: for an existing user whose email is not verified, the login
outcome (result and updated store) is the same for every supplied
password — the password is never compared before the requires-verification
outcome is produced. -/
theorem login_unverified_password_independent
    (envc : EnvCfg) (email p1 p2 v r : String) (now : Nat) (db : DB) (u : User)
    (hfind : findUserByEmail email db = some u)
    (hver : u.isEmailVerified = false) :
    login envc email p1 v r now db = login envc email p2 v r now db := by
  simp [login, hfind, hver]

/-- C8 witness: the theorem applied to the concrete unverified user with
two different passwords. -/
theorem login_unverified_password_independent_witness :
    login envC "u@v.w" "first" "v" "r" 10 dbC =
      login envC "u@v.w" "second" "v" "r" 10 dbC :=
  login_unverified_password_independent envC "u@v.w" "first" "second" "v" "r"
    10 dbC userB (by decide) (by decide)

/-- C4: for an existing unverified user, login returns the distinct
requires-verification success outcome (not a failure and not a token
pair) and, as a side effect, stores a fresh verification token with a new
expiry on the user row. -/
theorem login_unverified_regenerates_token
    (envc : EnvCfg) (email pw v r : String) (now : Nat) (db : DB) (u : User)
    (hfind : findUserByEmail email db = some u)
    (hver : u.isEmailVerified = false) :
    (login envc email pw v r now db).1 =
      okRes StatusCodes.OK "email verification required"
        (.requiresVerification (if envc.isProd then none else some v)) ∧
    allUsersWithId (login envc email pw v r now db).2 u.id
      (fun x => x.verificationToken == some v &&
        x.verificationExpiresAt == some (now + envc.emailVerificationExpiryMs))
      = true := by
  constructor
  · simp [login, hfind, hver]
  · simp only [login, hfind, hver, Bool.not_false, if_pos,
      resendVerificationToken, updateUser, allUsersWithId, List.all_eq_true,
      List.mem_map]
    rintro x ⟨y, hy, rfl⟩
    by_cases h1 : (y.id == u.id) = true
    · simp [h1]
    · simp only [beq_iff_eq] at h1
      simp [h1]

/-- C4 witness: the theorem applied to the concrete unverified user; the
first conjunct of the applied instance. -/
theorem login_unverified_regenerates_token_witness :
    (login envC "u@v.w" "x" "v" "r" 10 dbC).1 =
      okRes StatusCodes.OK "email verification required"
        (.requiresVerification (if envC.isProd then none else some "v")) :=
  (login_unverified_regenerates_token envC "u@v.w" "x" "v" "r" 10 dbC userB
    (by decide) (by decide)).1

/-- C7: on a successful login the Session Service returns the freshly
minted access token, the raw refresh secret and the configured refresh
TTL in milliseconds, and appends to the Ledger a refresh row for the user
hashed from that secret and expiring at now plus the TTL. -/
theorem login_success_returns_and_stores
    (envc : EnvCfg) (email pw v r : String) (now : Nat) (db : DB) (u : User)
    (hfind : findUserByEmail email db = some u)
    (hver : u.isEmailVerified = true)
    (hpw : bcryptCompare pw u.password = true) :
    (login envc email pw v r now db).1 =
      okRes StatusCodes.OK "user logged in"
        (.tokens (generateAccessToken envc u.id now) r envc.refreshExpiryMs) ∧
    (login envc email pw v r now db).2.refreshTokens =
      db.refreshTokens ++
        [⟨db.nextId, u.id, hashToken r, now + envc.refreshExpiryMs,
          false, none, none⟩] := by
  constructor
  · simp [login, hfind, hver, hpw]
  · simp [login, hfind, hver, hpw, store]

/-- C7 witness: the theorem applied to the concrete verified user with
the correct password; the first conjunct of the applied instance. -/
theorem login_success_returns_and_stores_witness :
    (login envC "a@b.c" "pw" "v" "r" 10 dbC).1 =
      okRes StatusCodes.OK "user logged in"
        (.tokens (generateAccessToken envC 1 10) "r" envC.refreshExpiryMs) :=
  (login_success_returns_and_stores envC "a@b.c" "pw" "v" "r" 10 dbC userA
    (by decide) (by decide) (by decide)).1

/-- Update helper: after `updateUser id f` with an id-preserving `f` that
clears the verification fields, every row with that id has them
cleared. -/
theorem updateUser_clears_verification (id : Nat) (f : User → User) (db : DB)
    (hf : ∀ x, (f x).verificationToken = none ∧
      (f x).verificationExpiresAt = none) :
    allUsersWithId (updateUser id f db) id
      (fun x => x.verificationToken == none &&
        x.verificationExpiresAt == none) = true := by
  simp only [allUsersWithId, updateUser, List.all_eq_true, List.mem_map]
  rintro x ⟨y, hy, rfl⟩
  by_cases h1 : (y.id == id) = true
  · simp [h1, (hf y).1, (hf y).2]
  · simp only [beq_iff_eq] at h1
    simp [h1]

/-- C10: whenever the presented verification token matches a user, the
user's verificationToken and verificationExpiresAt end up cleared — on
success, on already-verified, and on expiry alike — so a matched token is
single-use. -/
theorem verifyEmail_clears_matched_token
    (vt : String) (now : Nat) (db : DB) (u : User)
    (hfind : db.users.find?
      (fun x => x.verificationToken == some vt) = some u) :
    allUsersWithId (verifyEmail vt now db).2 u.id
      (fun x => x.verificationToken == none &&
        x.verificationExpiresAt == none) = true := by
  unfold verifyEmail
  rw [hfind]
  by_cases hv : u.isEmailVerified
  · simp only [hv, if_pos]
    exact updateUser_clears_verification _ _ _ (fun x => by simp)
  · by_cases he : verificationExpired u now
    · simp only [hv, he, if_neg, if_pos, Bool.false_eq_true,
        not_false_iff]
      exact updateUser_clears_verification _ _ _ (fun x => by simp)
    · simp only [hv, he, if_neg, Bool.false_eq_true, not_false_iff]
      exact updateUser_clears_verification _ _ _ (fun x => by simp)

/-- C10 witness: the theorem applied to the concrete store, where token
`vt2` matches the unverified user. -/
theorem verifyEmail_clears_matched_token_witness :
    allUsersWithId (verifyEmail "vt2" 50 dbC).2 2
      (fun x => x.verificationToken == none &&
        x.verificationExpiresAt == none) = true :=
  verifyEmail_clears_matched_token "vt2" 50 dbC userB (by decide)

/-- C9: a successful reset always leaves the user email-verified, and the
old-password check gates the reset only when the account was already
verified and an old password was supplied — otherwise the valid reset
token alone suffices. -/
theorem resetPassword_verifies_email_conditional_check
    (vt np : String) (oldPw : Option String) (now : Nat) (db : DB) (u : User)
    (hfind : db.users.find?
      (fun x => x.verificationToken == some vt) = some u)
    (hexp : verificationExpired u now = false) :
    ((u.isEmailVerified && strTruthy oldPw) = false →
      (resetPassword vt np oldPw now db).1.ok = true) ∧
    ((resetPassword vt np oldPw now db).1.ok = true →
      allUsersWithId (resetPassword vt np oldPw now db).2 u.id
        (fun x => x.isEmailVerified) = true) ∧
    ((u.isEmailVerified && strTruthy oldPw) = true →
      bcryptCompare (oldPw.getD "") u.password = false →
      (resetPassword vt np oldPw now db).1.ok = false) := by
  by_cases hc : (u.isEmailVerified && strTruthy oldPw &&
      !(bcryptCompare (oldPw.getD "") u.password)) = true
  · refine ⟨?_, ?_, ?_⟩
    · intro h
      rw [h] at hc
      simp at hc
    · intro hok
      simp [resetPassword, hfind, hexp, hc, failRes] at hok
    · intro _ _
      simp [resetPassword, hfind, hexp, hc, failRes]
  · refine ⟨?_, ?_, ?_⟩
    · intro _
      simp [resetPassword, hfind, hexp, hc, okRes]
    · intro _
      simp only [resetPassword, hfind, hexp, hc, Bool.false_eq_true,
        if_neg, not_false_iff, allUsersWithId, List.all_eq_true,
        List.mem_map]
      rintro x ⟨y, hy, rfl⟩
      by_cases h1 : (y.id == u.id) = true
      · simp [h1]
      · simp only [beq_iff_eq] at h1
        simp [h1]
    · intro h1 h2
      exact absurd (by rw [h1, h2]; rfl) hc

/-- C9 witness: the theorem applied to the concrete unverified user with
no old password; first conjunct applied, showing the token alone
suffices. -/
theorem resetPassword_verifies_email_conditional_check_witness :
    (resetPassword "vt2" "np" none 50 dbC).1.ok = true :=
  (resetPassword_verifies_email_conditional_check "vt2" "np" none 50 dbC
    userB (by decide) (by decide)).1 (by decide)

/-- C5: a successful reset replaces the user's password hash with the
hash of the new password, clears the verification fields, sets the
verified flag, and marks every non-revoked refresh row of the user
revoked with revokedAt set — all in the one combined state update the
transaction encodes; and on every failing path the stored passwords are
unchanged. -/
theorem resetPassword_success_effects
    (vt np : String) (oldPw : Option String) (now : Nat) (db : DB) (u : User)
    (vt2 np2 : String) (op2 : Option String) (now2 : Nat) (db2 : DB)
    (hfind : db.users.find?
      (fun x => x.verificationToken == some vt) = some u)
    (hexp : verificationExpired u now = false)
    (hold : (u.isEmailVerified && strTruthy oldPw &&
      !(bcryptCompare (oldPw.getD "") u.password)) = false) :
    (resetPassword vt np oldPw now db).1 =
      okRes StatusCodes.OK "password reset successful" .noPayload ∧
    (resetPassword vt np oldPw now db).2.users =
      db.users.map (fun x => if x.id == u.id then
        { x with
          password := bcryptHash np, isEmailVerified := true,
          verificationToken := none, verificationExpiresAt := none }
        else x) ∧
    (resetPassword vt np oldPw now db).2.refreshTokens =
      db.refreshTokens.map (fun x => if x.userId == u.id && !x.revoked then
        { x with revoked := true, revokedAt := some now } else x) ∧
    ((resetPassword vt2 np2 op2 now2 db2).1.ok = false →
      (resetPassword vt2 np2 op2 now2 db2).2.users.map
          (fun x => (x.id, x.password)) =
        db2.users.map (fun x => (x.id, x.password))) := by
  refine ⟨?_, ?_, ?_, ?_⟩
  · simp [resetPassword, hfind, hexp, hold]
  · simp [resetPassword, hfind, hexp, hold]
  · simp [resetPassword, hfind, hexp, hold]
  · intro hok
    cases hf2 : db2.users.find? (fun x => x.verificationToken == some vt2) with
    | none => simp [resetPassword, hf2]
    | some u2 =>
      by_cases he2 : verificationExpired u2 now2 = true
      · simp only [resetPassword, hf2, he2, if_pos]
        simp only [updateUser, List.map_map]
        apply List.map_congr_left
        intro a _
        by_cases ha : a.id = u2.id <;> simp [ha]
      · by_cases ho2 : (u2.isEmailVerified && strTruthy op2 &&
            !(bcryptCompare (op2.getD "") u2.password)) = true
        · simp [resetPassword, hf2, he2, ho2]
        · simp [resetPassword, hf2, he2, ho2, okRes] at hok

/-- C5 witness: the theorem applied to the concrete store; first
conjunct of the applied instance. -/
theorem resetPassword_success_effects_witness :
    (resetPassword "vt2" "np" none 50 dbC).1 =
      okRes StatusCodes.OK "password reset successful" .noPayload :=
  (resetPassword_success_effects "vt2" "np" none 50 dbC userB
    "z" "z2" none 0 dbC (by decide) (by decide) (by decide)).1

/-- C2: the Auth Gate computes exactly the per-request state machine the
spec describes — missing header 401, malformed scheme or missing token
part 400, failed verification 401, missing user 401, inactive user 403,
violated role↔profile invariant 403 `account misconfigured`, otherwise
attach the identity and continue — re-deriving profile existence from
the store passed to each call. -/
theorem requireAuth_state_machine (authHeader : Option String) (now : Nat)
    (db : DB) :
    requireAuth authHeader now db = requireAuthSpec authHeader now db := by
  cases authHeader with
  | none => rfl
  | some h =>
    unfold requireAuth requireAuthSpec
    by_cases hs : h.isEmpty
    · simp [hs, StatusCodes.UNAUTHORIZED]
    · simp only [hs, Bool.false_eq_true, if_neg, not_false_iff]
      by_cases hb : ((h.splitOn " ").headD "" != "Bearer" ||
          (((h.splitOn " ")[1]?).getD "").isEmpty) = true
      · have hb' : (h.splitOn " ").headD "" ≠ "Bearer" ∨
            (((h.splitOn " ")[1]?).getD "") = "" := by
          simpa [String.isEmpty_iff] using hb
        rw [if_pos hb, if_pos hb']
        rfl
      · have hb' : ¬((h.splitOn " ").headD "" ≠ "Bearer" ∨
            (((h.splitOn " ")[1]?).getD "") = "") := by
          simpa [String.isEmpty_iff, not_or] using hb
        rw [if_neg hb, if_neg hb']
        cases hv : verifyAccessToken (((h.splitOn " ")[1]?).getD "") now with
        | none => rfl
        | some uid =>
          dsimp only []
          cases hu : findUserById uid db with
          | none => rfl
          | some user =>
            dsimp only []
            by_cases hact : user.isActive
            · simp only [hact, Bool.not_true, Bool.false_eq_true, if_neg,
                not_false_iff]
              cases hrole : user.role with
              | TALENT =>
                by_cases ht : user.talentProfile <;>
                  by_cases he : user.employerProfile <;>
                    simp [hrole, ht, he, StatusCodes.FORBIDDEN]
              | EMPLOYER =>
                by_cases ht : user.talentProfile <;>
                  by_cases he : user.employerProfile <;>
                    simp [hrole, ht, he, StatusCodes.FORBIDDEN]
              | MODERATOR =>
                by_cases ht : user.talentProfile <;>
                  by_cases he : user.employerProfile <;>
                    simp [hrole, ht, he, StatusCodes.FORBIDDEN]
            · simp [hact, StatusCodes.FORBIDDEN]

/-- C1: an active refresh token rotates successfully exactly once,
yielding the externally generated new secret; presenting the same token
again afterwards is a replay that fails and revokes the owning user's
entire refresh-token set (every active and rotated-but-still-linked row,
including the successor), both at the Ledger and through Session Service
refresh. -/
theorem rotation_consumes_exactly_once
    (envc : EnvCfg) (T S S2 : String) (now now2 : Nat) (db : DB)
    (r : RefreshTokenRow)
    (hfind : db.refreshTokens.find?
      (fun x => x.tokenHash == hashToken T) = some r)
    (hrev : r.revoked = false) (hrot : r.replacedById = none)
    (hexp : ¬ r.expiresAt < now) :
    (rotateRefreshToken envc T S now db).1 =
      okRes StatusCodes.OK "token rotated" (.rotated S r.userId) ∧
    (rotateRefreshToken envc T S2 now2
        (rotateRefreshToken envc T S now db).2).1.ok = false ∧
    allTokensOfUser (rotateRefreshToken envc T S2 now2
        (rotateRefreshToken envc T S now db).2).2 r.userId
      (fun x => x.revoked) = true ∧
    (refresh envc T S2 now2 (rotateRefreshToken envc T S now db).2).1.ok
      = false := by
  have h1 : rotateRefreshToken envc T S now db =
      (okRes StatusCodes.OK "token rotated" (.rotated S r.userId),
       { db with
         refreshTokens :=
           (db.refreshTokens.map fun x =>
             if x.id == r.id then { x with replacedById := some db.nextId }
             else x) ++
           [⟨db.nextId, r.userId, hashToken S,
             now + envc.refreshExpiryMs, false, none, none⟩],
         nextId := db.nextId + 1 }) := by
    unfold rotateRefreshToken
    rw [hfind]
    simp [hrev, hrot, hexp]
  have hpres : ∀ x : RefreshTokenRow,
      ((if x.id == r.id then
          ({ x with replacedById := some db.nextId } : RefreshTokenRow)
        else x).tokenHash == hashToken T) = (x.tokenHash == hashToken T) := by
    intro x
    by_cases hx : (x.id == r.id) = true <;> simp [hx]
  have h2 : ((db.refreshTokens.map fun x =>
      if x.id == r.id then
        ({ x with replacedById := some db.nextId } : RefreshTokenRow)
      else x) ++
      ([⟨db.nextId, r.userId, hashToken S,
        now + envc.refreshExpiryMs, false, none, none⟩] :
        List RefreshTokenRow)).find?
        (fun y => y.tokenHash == hashToken T) =
      some { r with replacedById := some db.nextId } := by
    apply find?_append_some
    rw [find?_map_pred_preserved _ _ hpres, hfind]
    simp
  have h3 : rotateRefreshToken envc T S2 now2
      (rotateRefreshToken envc T S now db).2 =
      (failRes StatusCodes.UNAUTHORIZED "invalid refresh token",
       revokeAllRefreshTokens r.userId now2
         (rotateRefreshToken envc T S now db).2) := by
    rw [h1]
    unfold rotateRefreshToken
    dsimp only []
    rw [h2]
    simp
  refine ⟨?_, ?_, ?_, ?_⟩
  · rw [h1]
  · rw [h3]
    rfl
  · rw [h3]
    exact revokeAll_all_revoked _ _ _
  · unfold refresh
    rw [h3]
    rfl

/-- C1 witness: the theorem applied in the concrete store, where secret
`T` is active for user 1: rotation succeeds once, and the replay revokes
every token of user 1. -/
theorem rotation_consumes_exactly_once_witness :
    (rotateRefreshToken envC "T" "T2" 10 dbC).1 =
      okRes StatusCodes.OK "token rotated" (.rotated "T2" 1) ∧
    allTokensOfUser (rotateRefreshToken envC "T" "T3" 20
        (rotateRefreshToken envC "T" "T2" 10 dbC).2).2 1
      (fun x => x.revoked) = true :=
  ⟨(rotation_consumes_exactly_once envC "T" "T2" "T3" 10 20 dbC rowT
      (by decide) (by decide) (by decide) (by decide)).1,
   (rotation_consumes_exactly_once envC "T" "T2" "T3" 10 20 dbC rowT
      (by decide) (by decide) (by decide) (by decide)).2.2.1⟩
